import Mathlib

/-
Shallow embedding of the EspaconaveSistema2026 repository:
  - src/pages/admin/Dashboard.tsx   (dashboard aggregator)
  - src/pages/member/Messages.tsx   (member messaging inbox)

Modelling conventions:
  - `created_at` (an ISO timestamp string in the source, compared and
    sorted by the backend) is modelled as a Nat; order comparisons on the
    Nat model the chronological order of the timestamps.
  - A JavaScript promise that settles is modelled by its settled payload;
    a rejected promise is modelled by `Except.error`.
  - JS strict equality between `recipient_id : string | null` and
    `user?.id : string | undefined` is true only when both sides are
    strings and equal (`null === undefined` is false), see
    `recipientMatchesUser`.
  - The JS falsy coercion `x || d` on `string | null | undefined` maps the
    empty string, null and undefined to `d`, see `jsOrNull`.
-/

/-- The `Message` row interface of src/pages/member/Messages.tsx. -/
structure Message where
  id : String
  subject : String
  content : String
  is_read : Bool
  is_admin_message : Bool
  created_at : Nat
  sender_id : String
  recipient_id : Option String
deriving DecidableEq

/-- The `AdminUser` interface of src/pages/member/Messages.tsx. -/
structure AdminUser where
  id : String
  full_name : String
deriving DecidableEq

/-- JS strict equality of `recipient_id : string | null` against
`user?.id : string | undefined`: true only when both are equal strings. -/
def recipientMatchesUser (recipient_id : Option String) (user : Option String) : Bool :=
  match recipient_id, user with
  | some r, some uid => r == uid
  | _, _ => false

/-- Embeds `messages.filter((m) => m.sender_id === user?.id)`
(Messages.tsx line 199). -/
def sentMessages (msgs : List Message) (user : Option String) : List Message :=
  msgs.filter (fun m => match user with | some uid => m.sender_id == uid | none => false)

/-- Embeds `messages.filter((m) => m.recipient_id === user?.id)`
(Messages.tsx line 200). -/
def receivedMessages (msgs : List Message) (user : Option String) : List Message :=
  msgs.filter (fun m => recipientMatchesUser m.recipient_id user)

/-- Embeds the optimistic mark-read patch of `handleOpenMessage`
(Messages.tsx lines 185-188):
`prev.map((m) => (m.id === message.id ? \x7b ...m, is_read: true \x7d : m))`. -/
def patchRead (msgs : List Message) (mid : String) : List Message :=
  msgs.map (fun m => if m.id == mid then { m with is_read := true } else m)

/-- A row of the `productions` select of Dashboard.tsx lines 42-46
(columns id, title, status, production_type, created_at). -/
structure ProductionRow where
  id : String
  title : String
  status : String
  production_type : String
  created_at : Nat
deriving DecidableEq

/-- A row of the `schedule_bookings` select of Dashboard.tsx lines 47-52
(columns id, title, start_time, end_time). -/
structure BookingRow where
  id : String
  title : String
  start_time : Nat
  end_time : Nat
deriving DecidableEq

/-- The `DashboardData` interface of Dashboard.tsx lines 7-14. -/
structure DashboardData where
  artistsCount : Nat
  bookingsCount : Nat
  productionsCount : Nat
  activeProductionsCount : Nat
  recentProductions : List ProductionRow
  upcomingBookings : List BookingRow
deriving DecidableEq

/-- The six parallel query results awaited by `Promise.all` in
`fetchDashboardData` (Dashboard.tsx lines 27-53). `Except.error` is a
rejected promise; a settled count query carries `count : number | null`
and a settled list query carries `data : rows | null`. -/
structure DashboardInputs where
  artistsResult : Except Unit (Option Nat)
  bookingsResult : Except Unit (Option Nat)
  productionsResult : Except Unit (Option Nat)
  activeProductionsResult : Except Unit (Option Nat)
  recentProductionsResult : Except Unit (Option (List ProductionRow))
  upcomingBookingsResult : Except Unit (Option (List BookingRow))

/-- The component state of Dashboard.tsx lines 17-18: `data` (initially
null) and `isLoading` (initially true). -/
structure DashboardState where
  data : Option DashboardData
  isLoading : Bool
deriving DecidableEq

/-- Initial dashboard state: `useState(null)`, `useState(true)`. -/
def dashboardInit : DashboardState := { data := none, isLoading := true }

/-- True when a promise is rejected. -/
def isRejected {α : Type} : Except Unit α → Bool
  | .error _ => true
  | .ok _ => false

/-- True when at least one of the six parallel dashboard reads rejects,
making `Promise.all` reject. -/
def anyQueryRejected (inp : DashboardInputs) : Bool :=
  isRejected inp.artistsResult || isRejected inp.bookingsResult ||
  isRejected inp.productionsResult || isRejected inp.activeProductionsResult ||
  isRejected inp.recentProductionsResult || isRejected inp.upcomingBookingsResult

/-- Embeds `fetchDashboardData` (Dashboard.tsx lines 24-68): awaits the six
parallel reads; when all settle, publishes one snapshot with `count || 0`
and `data || []` defaults; when any rejects, the catch logs and `setData`
is never reached; the finally clause clears `isLoading` in both cases. -/
def fetchDashboardData (inp : DashboardInputs) (st : DashboardState) : DashboardState :=
  match inp.artistsResult, inp.bookingsResult, inp.productionsResult,
        inp.activeProductionsResult, inp.recentProductionsResult,
        inp.upcomingBookingsResult with
  | .ok a, .ok b, .ok c, .ok d, .ok r, .ok u =>
      { data := some
          { artistsCount := a.getD 0
            bookingsCount := b.getD 0
            productionsCount := c.getD 0
            activeProductionsCount := d.getD 0
            recentProductions := r.getD []
            upcomingBookings := u.getD [] }
        isLoading := false }
  | _, _, _, _, _, _ => { st with isLoading := false }

/-- The dashboard render (Dashboard.tsx lines 70-103): the loading spinner
exactly when `isLoading` is true, otherwise the page whose stats sections
render only when `data` is non-null. -/
inductive DashboardView where
  | loading
  | page (d : Option DashboardData)
deriving DecidableEq

/-- Embeds the render branch of Dashboard.tsx lines 70-76. -/
def renderDashboard (st : DashboardState) : DashboardView :=
  if st.isLoading then .loading else .page st.data

/-- A dashboard activation in which the "active productions" count query
rejects and the other five reads settle. -/
def dashInpC1 : DashboardInputs :=
  { artistsResult := .ok (some 1)
    bookingsResult := .ok (some 2)
    productionsResult := .ok (some 3)
    activeProductionsResult := .error ()
    recentProductionsResult := .ok (some [])
    upcomingBookingsResult := .ok (some []) }

/-- Claim C1 as stated is false: when the "active productions" count query
rejects, no snapshot is published (`data` stays none), but the finally
clause clears `isLoading`, so the rendered view is the page (with null
data) and NOT the loading state the claim asserts. -/
theorem C1_counterexample :
    anyQueryRejected dashInpC1 = true ∧
    (fetchDashboardData dashInpC1 dashboardInit).data = none ∧
    renderDashboard (fetchDashboardData dashInpC1 dashboardInit) ≠
      DashboardView.loading := by
  refine ⟨rfl, rfl, ?_⟩
  decide

/-- Claim C1 (amended): for every dashboard activation in which at least
one of the parallel reads rejects, no snapshot is published (the view-model
stays unset, all-or-nothing), but the finally clause clears the loading
flag, so the view exits the loading state and renders the page without the
stats sections rather than remaining in loading. -/
theorem C1_amended (inp : DashboardInputs)
    (h : anyQueryRejected inp = true) :
    (fetchDashboardData inp dashboardInit).data = none ∧
    (fetchDashboardData inp dashboardInit).isLoading = false := by
  obtain ⟨a, b, c, d, r, u⟩ := inp
  cases a <;> cases b <;> cases c <;> cases d <;> cases r <;> cases u <;>
    simp_all [anyQueryRejected, isRejected, fetchDashboardData, dashboardInit]

/-- Witness for C1_amended at the concrete activation `dashInpC1`. -/
theorem C1_amended_witness :
    anyQueryRejected dashInpC1 = true ∧
    ((fetchDashboardData dashInpC1 dashboardInit).data = none ∧
     (fetchDashboardData dashInpC1 dashboardInit).isLoading = false) :=
  ⟨rfl, C1_amended dashInpC1 rfl⟩

/-- The realtime subscription resource of the Messages screen: the set of
channels currently subscribed with the backend client. -/
structure RealtimeState where
  channels : List String
deriving DecidableEq

/-- Embeds `setupRealtime` (Messages.tsx lines 77-101): with no user it
does nothing; with a user it subscribes the "member-messages-page" channel
and RETURNS a cleanup closure that would remove that channel. -/
def setupRealtime (user : Option String) (s : RealtimeState) :
    RealtimeState × Option (RealtimeState → RealtimeState) :=
  match user with
  | none => (s, none)
  | some _ =>
      ({ channels := "member-messages-page" :: s.channels },
       some (fun s' => { channels := s'.channels.erase "member-messages-page" }))

/-- Embeds the mount effect of Messages.tsx lines 65-75, tracking only the
subscription resource: the effect body calls `setupRealtime()` but DISCARDS
its returned cleanup closure and itself returns undefined, so no cleanup is
registered with React. -/
def messagesPageEffect (authLoading : Bool) (user : Option String)
    (s : RealtimeState) : RealtimeState × Option (RealtimeState → RealtimeState) :=
  if authLoading = false ∧ user = none then (s, none)
  else
    match user with
    | some _ => ((setupRealtime user s).fst, none)
    | none => (s, none)

/-- Mounting then unmounting the Messages screen: run the effect, then run
the registered cleanup if any (React unmount semantics). -/
def mountThenUnmount (authLoading : Bool) (user : Option String)
    (s : RealtimeState) : RealtimeState :=
  match messagesPageEffect authLoading user s with
  | (s', some cleanup) => cleanup s'
  | (s', none) => s'

/-- Claim C2: the code violates the claim. Mounting the Messages screen
with a signed-in user and then unmounting leaves the
"member-messages-page" channel still subscribed, because the effect never
returns the cleanup closure that `setupRealtime` built; that closure,
had it been registered and run, would have removed the channel. -/
theorem C2_subscription_leak :
    (mountThenUnmount false (some "member-1") { channels := [] }).channels =
      ["member-messages-page"] ∧
    (match (setupRealtime (some "member-1") { channels := [] }).snd with
     | some cleanup =>
         (cleanup (setupRealtime (some "member-1") { channels := [] }).fst).channels
     | none => ["never-released"]) = [] := by
  constructor
  · rfl
  · rfl

/-- A message addressed by the current user to the current user. -/
def selfMsg : Message :=
  { id := "m-self", subject := "nota", content := "lembrete", is_read := false,
    is_admin_message := false, created_at := 3, sender_id := "u",
    recipient_id := some "u" }

/-- Claim C4 as stated is false: in a list holding one message whose
`sender_id` and `recipient_id` both equal the current user "u", that message
appears in BOTH the sent partition and the received partition, so the
partitions are not disjoint. -/
theorem C4_counterexample :
    selfMsg ∈ sentMessages [selfMsg] (some "u") ∧
    selfMsg ∈ receivedMessages [selfMsg] (some "u") := by
  decide

/-- Claim C4 (amended): for every message list and fixed current user, a
message lies in both the sent and the received partition exactly when it is
in the list with `sender_id` and `recipient_id` both equal to the current
user; in particular the partitions are disjoint if and only if the list
holds no such self-addressed message of the current user. -/
theorem C4_amended (msgs : List Message) (u : String) (m : Message) :
    (m ∈ sentMessages msgs (some u) ∧ m ∈ receivedMessages msgs (some u)) ↔
      (m ∈ msgs ∧ m.sender_id = u ∧ m.recipient_id = some u) := by
  simp only [sentMessages, receivedMessages, recipientMatchesUser, List.mem_filter]
  constructor
  · rintro ⟨⟨hm, hs⟩, ⟨-, hr⟩⟩
    refine ⟨hm, by simpa using hs, ?_⟩
    cases hrec : m.recipient_id with
    | none => rw [hrec] at hr; simp at hr
    | some r => rw [hrec] at hr; simp at hr; rw [hr]
  · rintro ⟨hm, hs, hr⟩
    exact ⟨⟨hm, by simp [hs]⟩, ⟨hm, by simp [hr]⟩⟩

/-- True when consecutive entries are ordered newest-first by
`created_at` (descending). -/
def sortedDescB : List Message → Bool
  | [] => true
  | [_] => true
  | a :: b :: rest => (decide (b.created_at ≤ a.created_at)) && sortedDescB (b :: rest)

/-- Insertion step for the descending-by-`created_at` order. -/
def insertDesc (m : Message) : List Message → List Message
  | [] => [m]
  | x :: xs =>
    if x.created_at ≤ m.created_at then m :: x :: xs else x :: insertDesc m xs

/-- Insertion sort, newest first; models the backend applying
`.order("created_at", ascending: false)` to a result set. -/
def sortDesc (l : List Message) : List Message := l.foldr insertDesc []

/-- Embeds the messages select of `fetchMessages` (Messages.tsx lines
107-111): rows matching `sender_id.eq.u` OR `recipient_id.eq.u`, returned
by the backend ordered by `created_at` descending. -/
def messagesQuery (db : List Message) (u : String) : List Message :=
  sortDesc (db.filter (fun m => m.sender_id == u || m.recipient_id == some u))

/-- The in-memory list states reachable by the code's two list-writing
transitions: a full fetch replacing the list with a backend query result
(Messages.tsx line 114), and a realtime INSERT delivery prepending the
delivered row addressed to the current user (Messages.tsx lines 90-94). -/
inductive InboxListReachable (u : String) : List Message → Prop where
  | init : InboxListReachable u []
  | fetched (l db : List Message) :
      InboxListReachable u l → InboxListReachable u (messagesQuery db u)
  | realtime (l : List Message) (m : Message) :
      InboxListReachable u l → m.recipient_id = some u →
      InboxListReachable u (m :: l)

/-- Same transitions, but every realtime-delivered row is at least as new
as every row currently held. -/
inductive InboxListReachableFresh (u : String) : List Message → Prop where
  | init : InboxListReachableFresh u []
  | fetched (l db : List Message) :
      InboxListReachableFresh u l → InboxListReachableFresh u (messagesQuery db u)
  | realtime (l : List Message) (m : Message) :
      InboxListReachableFresh u l → m.recipient_id = some u →
      (∀ m' ∈ l, m'.created_at ≤ m.created_at) →
      InboxListReachableFresh u (m :: l)

/-- Inserting into a descending-sorted list keeps it sorted. -/
theorem insertDesc_sorted (m : Message) :
    ∀ l : List Message, sortedDescB l = true → sortedDescB (insertDesc m l) = true := by
  intro l
  induction l with
  | nil => intro _; rfl
  | cons x xs ih =>
    intro h
    by_cases hx : x.created_at ≤ m.created_at
    · simp only [insertDesc, if_pos hx, sortedDescB, Bool.and_eq_true,
        decide_eq_true_eq]
      exact ⟨hx, h⟩
    · cases xs with
      | nil =>
        simp only [insertDesc, if_neg hx, sortedDescB, Bool.and_eq_true,
          decide_eq_true_eq]
        exact ⟨by omega, trivial⟩
      | cons y ys =>
        have h1 : y.created_at ≤ x.created_at ∧ sortedDescB (y :: ys) = true := by
          simpa [sortedDescB, Bool.and_eq_true, decide_eq_true_eq] using h
        by_cases hy : y.created_at ≤ m.created_at
        · simp only [insertDesc, if_neg hx, if_pos hy, sortedDescB,
            Bool.and_eq_true, decide_eq_true_eq]
          exact ⟨by omega, hy, by
            simpa [sortedDescB, Bool.and_eq_true, decide_eq_true_eq] using h1.2⟩
        · have h2 := ih h1.2
          simp only [insertDesc, if_neg hy] at h2
          simp only [insertDesc, if_neg hx, if_neg hy, sortedDescB,
            Bool.and_eq_true, decide_eq_true_eq]
          exact ⟨h1.1, by
            simpa [sortedDescB, Bool.and_eq_true, decide_eq_true_eq] using h2⟩

/-- The full insertion sort is sorted. -/
theorem sortDesc_sorted (l : List Message) : sortedDescB (sortDesc l) = true := by
  induction l with
  | nil => rfl
  | cons x xs ih => exact insertDesc_sorted x (sortDesc xs) ih

/-- An older message and a newer one, both addressed to user "u". -/
def msgOld : Message :=
  { id := "m-old", subject := "antiga", content := "a", is_read := false,
    is_admin_message := false, created_at := 5, sender_id := "admin-1",
    recipient_id := some "u" }

/-- The newer of the two messages. -/
def msgNew : Message :=
  { id := "m-new", subject := "nova", content := "b", is_read := false,
    is_admin_message := false, created_at := 10, sender_id := "admin-1",
    recipient_id := some "u" }

/-- Claim C5 as stated is false: the state reached by fetching the list
`[msgNew]` and then ingesting the realtime delivery of the back-dated row
`msgOld` (`created_at` 5, older than the held row with `created_at` 10) is
`[msgOld, msgNew]`, which is not sorted newest-first: the realtime handler
prepends the delivered row without comparing timestamps. -/
theorem C5_counterexample :
    InboxListReachable "u" [msgOld, msgNew] ∧
    sortedDescB [msgOld, msgNew] = false := by
  constructor
  · have h0 : InboxListReachable "u" (messagesQuery [msgNew] "u") :=
      InboxListReachable.fetched [] [msgNew] InboxListReachable.init
    have he : messagesQuery [msgNew] "u" = [msgNew] := by decide
    rw [he] at h0
    exact InboxListReachable.realtime [msgNew] msgOld h0 rfl
  · decide

/-- Claim C5 (amended): after the initial full fetch the list is sorted by
`created_at` descending, and realtime ingestion (a raw prepend) preserves
the descending order exactly when each delivered row is at least as new as
every row currently held; every state reachable under such
newer-than-everything deliveries is sorted newest-first, while a delivery
older than a held row breaks the order. -/
theorem C5_amended (u : String) (l : List Message)
    (h : InboxListReachableFresh u l) : sortedDescB l = true := by
  induction h with
  | init => rfl
  | fetched l' db _ _ => exact sortDesc_sorted _
  | realtime l' m _ _ hfresh ih =>
    cases l' with
    | nil => rfl
    | cons x xs =>
      have hx : x.created_at ≤ m.created_at := hfresh x (by simp)
      simp only [sortedDescB, Bool.and_eq_true, decide_eq_true_eq]
      exact ⟨hx, ih⟩

/-- Witness for C5_amended at the concrete fetched state `[msgNew]`. -/
theorem C5_amended_witness : sortedDescB [msgNew] = true :=
  C5_amended "u" [msgNew] (by
    have h0 : InboxListReachableFresh "u" (messagesQuery [msgNew] "u") :=
      InboxListReachableFresh.fetched [] [msgNew] InboxListReachableFresh.init
    have he : messagesQuery [msgNew] "u" = [msgNew] := by decide
    exact he ▸ h0)

/-- The inbox component state touched by `fetchMessages`: the in-memory
message list and the loading flag (Messages.tsx lines 51, 53). -/
structure MessagesState where
  messages : List Message
  isLoading : Bool
deriving DecidableEq

/-- The try/catch/finally body of `fetchMessages` (Messages.tsx lines
106-119): on a query error the catch logs (second component `true`) and
the list is untouched; on success the list is replaced by `data || []`;
the finally clause clears the loading flag either way.  In the success
case the settled payload is the backend result `some (messagesQuery db u)`;
it is kept abstract here. -/
def applyFetchMessages (res : Except Unit (Option (List Message)))
    (st : MessagesState) : MessagesState × Bool :=
  match res with
  | .error _ => ({ st with isLoading := false }, true)
  | .ok d => ({ messages := d.getD [], isLoading := false }, false)

/-- Embeds `fetchMessages` (Messages.tsx lines 103-120) including the
`if (!user) return;` guard on line 104, which exits before the try/finally
and so touches neither the list nor the loading flag. -/
def fetchMessages (user : Option String)
    (res : Except Unit (Option (List Message))) (st : MessagesState) :
    MessagesState × Bool :=
  match user with
  | none => (st, false)
  | some _ => applyFetchMessages res st

/-- Claim C9 as stated is false: an invocation of the list operation with
no signed-in user hits the `if (!user) return;` guard before the
try/finally, so the loading flag is NOT cleared (it stays true) — the flag
is not cleared "in every case". -/
theorem C9_counterexample :
    fetchMessages none (Except.ok (some []))
        { messages := [selfMsg], isLoading := true } =
      ({ messages := [selfMsg], isLoading := true }, false) := rfl

/-- Claim C9 (amended): for every invocation of the list operation with a
signed-in user, a query error is handled silently — it is logged and the
prior in-memory list is left untouched — and the loading flag is cleared
in every case, error included; an invocation with no signed-in user
returns early and touches neither the list nor the flag. -/
theorem C9_amended (uid : String) (st : MessagesState) :
    (∀ e, (fetchMessages (some uid) (Except.error e) st).fst.messages =
            st.messages ∧
          (fetchMessages (some uid) (Except.error e) st).snd = true) ∧
    (∀ res, (fetchMessages (some uid) res st).fst.isLoading = false) := by
  refine ⟨fun e => ⟨rfl, rfl⟩, fun res => ?_⟩
  cases res <;> rfl

/-- The row shape passed to the messages insert in `handleSendMessage`
(Messages.tsx lines 153-159): id, created_at and is_read are filled by the
backend and are not part of the payload. -/
structure MessageInsert where
  sender_id : String
  recipient_id : Option String
  subject : String
  content : String
  is_admin_message : Bool
deriving DecidableEq

/-- A toast notification shown to the user. -/
inductive Toast where
  | errorToast (text : String)
  | successToast (text : String)
  | infoToast (text : String)
deriving DecidableEq

/-- The observable outcome of one `handleSendMessage` call: the insert
calls issued, the toasts shown, whether a full re-list was triggered, and
the final dialog/form/sending state. -/
structure SendResult where
  inserts : List MessageInsert
  toasts : List Toast
  refetch : Bool
  newMessageOpen : Bool
  formSubject : String
  formContent : String
  isSending : Bool
deriving DecidableEq

/-- The JS falsy coercion in `admins[0]?.id || null`: undefined (no first
admin) and the empty string both coerce to null. -/
def jsOrNull (o : Option String) : Option String :=
  match o with
  | some s => if s = "" then none else some s
  | none => none

/-- Embeds `handleSendMessage` (Messages.tsx lines 144-173).  The guard
`!user || !messageForm.subject || !messageForm.content` reports a
validation error and returns before any network call.  Otherwise one row
is inserted with `sender_id = user.id`,
`recipient_id = admins[0]?.id || null`, `is_admin_message: false`; when
the insert settles without error the success toast is shown, the dialog is
closed, the form cleared, and a full re-list triggered; when it settles
with an error the catch shows an error toast and leaves dialog and form
untouched; the finally clause ends with `isSending = false`. -/
def handleSendMessage (user : Option String) (admins : List AdminUser)
    (subject content : String) (dialogOpen sending insertOk : Bool) :
    SendResult :=
  match user with
  | none =>
      { inserts := [], toasts := [.errorToast "Preencha todos os campos"],
        refetch := false, newMessageOpen := dialogOpen,
        formSubject := subject, formContent := content, isSending := sending }
  | some uid =>
      if subject = "" ∨ content = "" then
        { inserts := [], toasts := [.errorToast "Preencha todos os campos"],
          refetch := false, newMessageOpen := dialogOpen,
          formSubject := subject, formContent := content, isSending := sending }
      else
        let row : MessageInsert :=
          { sender_id := uid
            recipient_id := jsOrNull (admins.head?.map AdminUser.id)
            subject := subject
            content := content
            is_admin_message := false }
        if insertOk then
          { inserts := [row], toasts := [.successToast "Mensagem enviada!"],
            refetch := true, newMessageOpen := false,
            formSubject := "", formContent := "", isSending := false }
        else
          { inserts := [row], toasts := [.errorToast "Erro ao enviar mensagem"],
            refetch := false, newMessageOpen := dialogOpen,
            formSubject := subject, formContent := content,
            isSending := false }

/-- Claim C7: for every compose input with an empty subject, an empty
content, or no signed-in user, `handleSendMessage` performs zero network
calls (no insert and no re-list) and reports the validation error toast. -/
theorem C7_validation (user : Option String) (admins : List AdminUser)
    (subject content : String) (dialogOpen sending insertOk : Bool)
    (h : user = none ∨ subject = "" ∨ content = "") :
    (handleSendMessage user admins subject content dialogOpen sending
        insertOk).inserts = [] ∧
    (handleSendMessage user admins subject content dialogOpen sending
        insertOk).refetch = false ∧
    (handleSendMessage user admins subject content dialogOpen sending
        insertOk).toasts = [Toast.errorToast "Preencha todos os campos"] := by
  cases user with
  | none => exact ⟨rfl, rfl, rfl⟩
  | some uid =>
    have h' : subject = "" ∨ content = "" := by
      rcases h with h | h | h
      · exact absurd h (by simp)
      · exact Or.inl h
      · exact Or.inr h
    simp [handleSendMessage, if_pos h']

/-- Witness for C7_validation at a signed-out invocation. -/
theorem C7_validation_witness :
    ((none : Option String) = none ∨ "Oi" = "" ∨ "corpo" = "") ∧
    (handleSendMessage none [] "Oi" "corpo" true false true).inserts = [] ∧
    (handleSendMessage none [] "Oi" "corpo" true false true).refetch = false ∧
    (handleSendMessage none [] "Oi" "corpo" true false true).toasts =
      [Toast.errorToast "Preencha todos os campos"] :=
  ⟨Or.inl rfl, C7_validation none [] "Oi" "corpo" true false true (Or.inl rfl)⟩

/-- An admin directory entry whose id is the empty string. -/
def adminEmptyId : AdminUser := { id := "", full_name := "Admin" }

/-- Claim C6 as stated is false: with the nonempty admin list
`[adminEmptyId]` whose first entry has the empty string as id, a valid
send inserts a row whose `recipient_id` is absent (null), because
`admins[0]?.id || null` coerces the falsy empty string to null — the
claim requires the recipient to be absent only when the admin list is
empty. -/
theorem C6_counterexample :
    ([adminEmptyId] ≠ ([] : List AdminUser)) ∧
    (handleSendMessage (some "u") [adminEmptyId] "Assunto" "Conteudo"
        true false true).inserts =
      [{ sender_id := "u", recipient_id := none, subject := "Assunto",
         content := "Conteudo", is_admin_message := false }] := by
  exact ⟨by decide, rfl⟩

/-- Claim C6 (amended): for every valid compose input (non-empty subject
and content, signed-in user), send inserts exactly one row with
`sender_id` the current user and `is_admin_message = false`, whose
`recipient_id` is the first admin's id unless the admin list is empty or
that id is the empty string (JS falsy coercion), in which case it is
absent; the call ends with `isSending = false`; on insert success it shows
the success toast, closes the compose dialog, clears the form, and
triggers a full re-list; on insert failure it shows an error toast,
leaves the dialog state and the entered text intact, and triggers no
re-list. -/
theorem C6_amended (uid : String) (admins : List AdminUser)
    (subject content : String) (dialogOpen sending insertOk : Bool)
    (hs : subject ≠ "") (hc : content ≠ "") :
    (handleSendMessage (some uid) admins subject content dialogOpen sending
        insertOk).inserts.length = 1 ∧
    (∀ row ∈ (handleSendMessage (some uid) admins subject content dialogOpen
        sending insertOk).inserts,
      row.sender_id = uid ∧ row.subject = subject ∧ row.content = content ∧
      row.is_admin_message = false ∧
      row.recipient_id =
        (match admins with
         | [] => none
         | a :: _ => if a.id = "" then none else some a.id)) ∧
    (handleSendMessage (some uid) admins subject content dialogOpen sending
        insertOk).isSending = false ∧
    (insertOk = true →
      (handleSendMessage (some uid) admins subject content dialogOpen sending
          insertOk) =
        { inserts := (handleSendMessage (some uid) admins subject content
            dialogOpen sending insertOk).inserts,
          toasts := [Toast.successToast "Mensagem enviada!"],
          refetch := true, newMessageOpen := false,
          formSubject := "", formContent := "", isSending := false }) ∧
    (insertOk = false →
      (handleSendMessage (some uid) admins subject content dialogOpen sending
          insertOk) =
        { inserts := (handleSendMessage (some uid) admins subject content
            dialogOpen sending insertOk).inserts,
          toasts := [Toast.errorToast "Erro ao enviar mensagem"],
          refetch := false, newMessageOpen := dialogOpen,
          formSubject := subject, formContent := content,
          isSending := false }) := by
  have hval : ¬(subject = "" ∨ content = "") := by
    rintro (h | h)
    exacts [hs h, hc h]
  have hins :
      (handleSendMessage (some uid) admins subject content dialogOpen sending
        insertOk).inserts =
      [{ sender_id := uid
         recipient_id := jsOrNull (admins.head?.map AdminUser.id)
         subject := subject, content := content,
         is_admin_message := false }] := by
    cases insertOk <;> simp [handleSendMessage, hval]
  refine ⟨by rw [hins]; rfl, ?_, ?_, ?_, ?_⟩
  · intro row hr
    rw [hins, List.mem_singleton] at hr
    subst hr
    refine ⟨rfl, rfl, rfl, rfl, ?_⟩
    cases admins with
    | nil => rfl
    | cons a rest => rfl
  · cases insertOk <;> simp [handleSendMessage, hval]
  · intro hok
    subst hok
    simp [handleSendMessage, hval]
  · intro hok
    subst hok
    simp [handleSendMessage, hval]

/-- Witness for C6_amended at a concrete valid send to admin "admin-1". -/
theorem C6_amended_witness :
    ("Assunto" ≠ "") ∧ ("Conteudo" ≠ "") ∧
    (handleSendMessage (some "u") [{ id := "admin-1", full_name := "Admin" }]
        "Assunto" "Conteudo" true false true).inserts.length = 1 :=
  ⟨by decide, by decide,
    (C6_amended "u" [{ id := "admin-1", full_name := "Admin" }] "Assunto"
      "Conteudo" true false true (by decide) (by decide)).1⟩

/-- The externally visible events of one `handleOpenMessage` call, in the
order the async code produces them. -/
inductive OpenEvent where
  | selectMsg (id : String)
  | updateIssued (id : String)
  | updateSettled (id : String) (ok : Bool)
  | localPatch (id : String)
deriving DecidableEq

/-- Embeds `handleOpenMessage` (Messages.tsx lines 175-189) as its event
trace: `setSelectedMessage` always runs first; when the message is unread
and its `recipient_id` strictly equals `user?.id`, the read-state update
is issued, AWAITED until it settles (with outcome `ok`, which the code
never inspects), and only then is the local list patched. -/
def handleOpenMessageTrace (user : Option String) (m : Message) (ok : Bool) :
    List OpenEvent :=
  OpenEvent.selectMsg m.id ::
    (if !m.is_read && recipientMatchesUser m.recipient_id user then
      [OpenEvent.updateIssued m.id, OpenEvent.updateSettled m.id ok,
       OpenEvent.localPatch m.id]
    else [])

/-- The final in-memory list after one `handleOpenMessage` call
(Messages.tsx lines 185-188). -/
def handleOpenMessageState (user : Option String) (m : Message)
    (msgs : List Message) : List Message :=
  if !m.is_read && recipientMatchesUser m.recipient_id user then
    patchRead msgs m.id
  else msgs

/-- True on the settlement event of the awaited update. -/
def isSettledEvent : OpenEvent → Bool
  | .updateSettled _ _ => true
  | _ => false

/-- True on the local-patch event. -/
def isPatchEvent : OpenEvent → Bool
  | .localPatch _ => true
  | _ => false

/-- An unread message addressed to user "u". -/
def msgC3 : Message :=
  { id := "m1", subject := "s", content := "c", is_read := false,
    is_admin_message := false, created_at := 1, sender_id := "admin-1",
    recipient_id := some "u" }

/-- Claim C3 as stated is false: opening the unread received message
`msgC3` produces the trace select, update issued, update settled, local
patch — the unique local-patch event sits at index 3, strictly AFTER the
settlement of the awaited update at index 2, so the local patch waits for
the update call to return; it is not applied independently of its
completion. -/
theorem C3_counterexample :
    handleOpenMessageTrace (some "u") msgC3 true =
      [OpenEvent.selectMsg "m1", OpenEvent.updateIssued "m1",
       OpenEvent.updateSettled "m1" true, OpenEvent.localPatch "m1"] ∧
    (handleOpenMessageTrace (some "u") msgC3 true).findIdx? isSettledEvent =
      some 2 ∧
    (handleOpenMessageTrace (some "u") msgC3 true).findIdx? isPatchEvent =
      some 3 := by
  refine ⟨by decide, by decide, by decide⟩

/-- Claim C3 (amended): for every unread message whose `recipient_id`
equals the current user, opening it issues the read-state update, awaits
its settlement, and only after the update call has settled patches the
local list entry to read — the patch is sequenced after the await, not
fire-and-forget; it is however applied whatever the settled outcome is
(the code inspects neither success nor error, so there is no rollback on
failure), and the resulting list is exactly the mark-read patch of the
prior list. -/
theorem C3_amended (u : String) (m : Message) (ok : Bool)
    (msgs : List Message)
    (h1 : m.is_read = false) (h2 : m.recipient_id = some u) :
    handleOpenMessageTrace (some u) m ok =
      [OpenEvent.selectMsg m.id, OpenEvent.updateIssued m.id,
       OpenEvent.updateSettled m.id ok, OpenEvent.localPatch m.id] ∧
    handleOpenMessageState (some u) m msgs = patchRead msgs m.id := by
  have hc : (!m.is_read && recipientMatchesUser m.recipient_id (some u)) = true := by
    simp [h1, h2, recipientMatchesUser]
  exact ⟨by simp [handleOpenMessageTrace, hc],
         by simp [handleOpenMessageState, hc]⟩

/-- Witness for C3_amended at the unread received message `msgC3`. -/
theorem C3_amended_witness :
    msgC3.is_read = false ∧ msgC3.recipient_id = some "u" ∧
    handleOpenMessageState (some "u") msgC3 [msgC3] = patchRead [msgC3] "m1" :=
  ⟨rfl, rfl, (C3_amended "u" msgC3 false [msgC3] rfl rfl).2⟩

/-- Claim C8: opening a message issues the read-state update exactly when
the message is unread and its `recipient_id` equals the current user; in
particular opening an already-read message issues no update (idempotence),
and opening a message whose `sender_id` is the current user but whose
`recipient_id` is not never issues an update. -/
theorem C8_update_iff (u : String) (m : Message) (ok : Bool) :
    (OpenEvent.updateIssued m.id ∈ handleOpenMessageTrace (some u) m ok) ↔
      (m.is_read = false ∧ m.recipient_id = some u) := by
  by_cases h1 : m.is_read
  · simp [handleOpenMessageTrace, h1]
  · by_cases h2 : m.recipient_id = some u
    · simp [handleOpenMessageTrace, h1, h2, recipientMatchesUser]
    · have hm : recipientMatchesUser m.recipient_id (some u) = false := by
        cases hr : m.recipient_id with
        | none => rfl
        | some r =>
          have : ¬r = u := by
            intro he
            exact h2 (by rw [hr, he])
          simp [recipientMatchesUser, this]
      simp [handleOpenMessageTrace, h1, h2, hm]

/-- Claim C10: the optimistic mark-read patch is frame-preserving: it keeps
the list length, and position by position it maps each entry to itself
unless the entry's id equals the opened id, in which case only `is_read` is
set to true; consequently ids, subjects, contents, timestamps, sender and
recipient fields, and the order of the list are all unchanged. -/
theorem C10_patch_frame (msgs : List Message) (mid : String) :
    (patchRead msgs mid).length = msgs.length ∧
    (∀ i, (patchRead msgs mid).get? i =
      (msgs.get? i).map (fun m => if m.id == mid then { m with is_read := true } else m)) ∧
    (patchRead msgs mid).map
        (fun m => (m.id, m.subject, m.content, m.created_at, m.sender_id,
                   m.recipient_id, m.is_admin_message)) =
      msgs.map (fun m => (m.id, m.subject, m.content, m.created_at, m.sender_id,
                   m.recipient_id, m.is_admin_message)) := by
  refine ⟨by simp [patchRead], fun i => by simp [patchRead, List.getElem?_map], ?_⟩
  induction msgs with
  | nil => rfl
  | cons x xs ih =>
    simp only [patchRead, List.map_cons] at ih ⊢
    rw [ih]
    by_cases h : x.id == mid <;> simp [h]
